import Mathlib

/-!
Shallow embedding of `scrobbler.py` (davea/applemusicscrobbler).

The source is a single-file event-driven scrobbler for iTunes/Apple Music.
We embed its pure logic directly:

* `update_now_playing` — the metadata eligibility check and now-playing call
  assembly (source lines 76–91);
* `DurationPolicy.decide` — the scheduling decision inlined in
  `prepare_to_scrobble` (source lines 100–114): track length from the event
  (milliseconds / 1000, true division), the zero-length fallback query, the
  30-second minimum and the `min(ceil(length/2), 240)` delay;
* the state machine over timer handles (`prepare_to_scrobble`,
  `cancel_scrobble_timer`, `receivedNotification_` as `step`, with the
  environment's inputs — player-state string, notification payload, the
  result the 5-second fallback query would return, timer fires — supplied
  as an event list);
* `scrobbleTimerFired` — the fire handler (source lines 134–184) as a pure
  function from its environment reads (timer validity, live player state,
  snapshot payload, live current track, wall clock, playback position) to
  the optional scrobble submission;
* `toUnsigned64` / `format016X` — the sign correction and `"{:016X}"`
  formatting of the persistent id (source lines 144–148).

Python floats (track lengths, wall-clock seconds, playback position) are
modelled as exact rationals; Python `int(·)` truncation toward zero is
`pyInt`.
-/

namespace Scrobbler

/- Batteries marks the arithmetic on `Rat` irreducible; restore unfolding in
this file so that concrete runs of the embedded code reduce under `decide`. -/
attribute [local semireducible] Rat.mul Rat.inv Rat.add Rat.sub

/-- Source line 24: a track must be at least this many seconds long to be
scrobbled. -/
def SCROBBLER_MIN_TRACK_LENGTH : ℕ := 30

/-- Source line 26: scrobble after the track's halfway point or this many
seconds, whichever is first. -/
def SCROBBLER_HALFWAY_THRESHOLD : ℤ := 240

/-- Source line 20: `int.from_bytes(b'kPSS', byteorder="big")`. -/
def ITUNES_PLAYER_STATE_STOPPED : ℤ := 0x6B505353

/-- Source line 21: `int.from_bytes(b'kPSP', byteorder="big")`. -/
def ITUNES_PLAYER_STATE_PLAYING : ℤ := 0x6B505350

/-- Python `int(q)`: truncation toward zero. -/
def pyInt (q : ℚ) : ℤ := if 0 ≤ q then ⌊q⌋ else ⌈q⌉

/-- Python truthiness of an optional string: `None` and `""` are falsy
(`not kwargs['artist']` in the source). -/
def pyFalsyStr : Option String → Bool
  | none => true
  | some s => s == ""

/-- Source lines 145–147: PyObjC reports the 64-bit persistent id as a signed
value; a negative value is corrected by adding `2^64`. -/
def toUnsigned64 (v : ℤ) : ℤ := if v < 0 then v + 2 ^ 64 else v

/-- Uppercase hexadecimal digit characters, least value first. -/
def hexDigitChar (n : ℕ) : Char :=
  if n = 0 then '0' else if n = 1 then '1' else if n = 2 then '2'
  else if n = 3 then '3' else if n = 4 then '4' else if n = 5 then '5'
  else if n = 6 then '6' else if n = 7 then '7' else if n = 8 then '8'
  else if n = 9 then '9' else if n = 10 then 'A' else if n = 11 then 'B'
  else if n = 12 then 'C' else if n = 13 then 'D' else if n = 14 then 'E'
  else 'F'

/-- Most-significant-first hexadecimal digits of `n` (no leading zeros),
with enough fuel; `toHexDigits 16 n` is exact for every `n < 2 ^ 64`. -/
def toHexDigits : ℕ → ℕ → List Char
  | 0, _ => []
  | fuel + 1, n => if n = 0 then [] else toHexDigits fuel (n / 16) ++ [hexDigitChar (n % 16)]

/-- Source line 148: `"{:016X}".format(n)` — 16-wide zero-padded uppercase
hexadecimal — modelled for `n < 2 ^ 64`, the range `toUnsigned64` produces
on signed 64-bit input (the only values the program formats). -/
def format016X (n : ℕ) : String :=
  let raw := toHexDigits 16 n
  let ds := if raw = [] then ['0'] else raw
  ⟨List.replicate (16 - ds.length) '0' ++ ds⟩

/-- The notification payload fields the source reads from `userinfo`
(source lines 74, 77–83, 96, 102, 144, 174–179). `totalTime` is in
milliseconds; `persistentID` is the sign-ambiguous 64-bit value. -/
structure TrackMetadata where
  artist : Option String
  albumArtist : Option String
  name : Option String
  album : Option String
  trackNumber : Option ℤ
  totalTime : Option ℕ
  persistentID : Option ℤ
deriving DecidableEq

/-- The live current track as read through ScriptingBridge at fire time
(source lines 151–170): `persistentID()` is a hex string (or absent for
streams), `duration()` is in seconds. -/
structure CurrentTrack where
  persistentID : Option String
  artist : Option String
  name : Option String
  album : Option String
  albumArtist : Option String
  trackNumber : Option ℤ
  duration : ℚ

/-- The keyword arguments of `lastfm.update_now_playing` (source lines
77–84). -/
structure NowPlayingCall where
  artist : Option String
  album_artist : Option String
  title : Option String
  album : Option String
  track_number : Option ℤ
  duration : Option ℕ
deriving DecidableEq

/-- The keyword arguments of `lastfm.scrobble` (source lines 164–181). -/
structure ScrobbleCall where
  artist : Option String
  title : Option String
  album : Option String
  album_artist : Option String
  track_number : Option ℤ
  duration : Option ℤ
  timestamp : ℤ
deriving DecidableEq

/-- `userinfo.get("Total Time", 0) // 1000 or None` (source lines 83 and
179): floor-divide the millisecond length by 1000; a zero result becomes
`None` under Python's `or`. -/
def snapshotDuration (ui : TrackMetadata) : Option ℕ :=
  let d := ui.totalTime.getD 0 / 1000
  if d = 0 then none else some d

/-- Source lines 76–91: assemble the now-playing call; if artist or title is
falsy the call is skipped and `False` is returned (second component), else
the call is made and `True` is returned. -/
def update_now_playing (ui : TrackMetadata) : Option NowPlayingCall × Bool :=
  if pyFalsyStr ui.artist || pyFalsyStr ui.name then (none, false)
  else (some ⟨ui.artist, ui.albumArtist, ui.name, ui.album, ui.trackNumber,
              snapshotDuration ui⟩, true)

namespace DurationPolicy

/-- Outcome of the scheduling decision: no timer, or a timer after the given
number of seconds. -/
inductive ScheduleDecision where
  | abandon : ScheduleDecision
  | scheduleAfter (seconds : ℤ) : ScheduleDecision
deriving DecidableEq

/-- Source lines 102–114, the scheduling decision inlined in
`prepare_to_scrobble`: `track_length = userinfo.get("Total Time", 0) / 1000`
(true division, seconds); if zero, the blocking 5-second fallback query's
result (`fallbackLength`, `None` when the player reports nothing) is used,
a falsy result abandoning; an initially nonzero length below
`SCROBBLER_MIN_TRACK_LENGTH` abandons (the `elif` branch — note the source
does not re-check the minimum after the fallback); otherwise the delay is
`min(ceil(track_length / 2), SCROBBLER_HALFWAY_THRESHOLD)`. -/
def decide (totalTimeMillis : ℕ) (fallbackLength : Option ℚ) : ScheduleDecision :=
  let track_length : ℚ := (totalTimeMillis : ℚ) / 1000
  if track_length = 0 then
    match fallbackLength with
    | none => .abandon
    | some l =>
      if l = 0 then .abandon
      else .scheduleAfter (min ⌈l / 2⌉ SCROBBLER_HALFWAY_THRESHOLD)
  else if track_length < (SCROBBLER_MIN_TRACK_LENGTH : ℚ) then .abandon
  else .scheduleAfter (min ⌈track_length / 2⌉ SCROBBLER_HALFWAY_THRESHOLD)

end DurationPolicy

/-- Lifecycle of a single-shot `NSTimer` handle: live (scheduled, unfired,
uncancelled), fired (a non-repeating timer invalidates itself on firing),
or cancelled (`invalidate` was called while it was live). -/
inductive TStatus where
  | live
  | fired
  | cancelled
deriving DecidableEq

/-- Pointwise update of a timer-status assignment. -/
def upd (f : ℕ → TStatus) (i : ℕ) (v : TStatus) : ℕ → TStatus :=
  fun j => if j = i then v else f j

/-- The `Scrobbler` object's mutable timer state: `nTimers` handles ever
created (fresh handles get index `nTimers`), their statuses, and the
`scrobble_timer` instance field (source line 32). -/
structure SMState where
  nTimers : ℕ
  status : ℕ → TStatus
  scrobble_timer : Option ℕ

/-- Initial state: no timer handles, `scrobble_timer = None`. -/
def initState : SMState := ⟨0, fun _ => .cancelled, none⟩

/-- Source lines 125–132: if a timer handle is held, `invalidate()` it (a
live handle becomes cancelled; an already fired or cancelled handle is
unchanged — `invalidate` is a safe no-op there) and set the field to
`None`; otherwise do nothing. -/
def cancel_scrobble_timer (s : SMState) : SMState :=
  match s.scrobble_timer with
  | none => s
  | some i =>
    ⟨s.nTimers,
     upd s.status i (match s.status i with | .live => .cancelled | st => st),
     none⟩

/-- Source lines 93–123: first cancel any held timer; abandon if the payload
has no `PersistentID`; then run the duration policy and, if it schedules,
create a fresh live timer handle and store it in `scrobble_timer`. -/
def prepare_to_scrobble (md : TrackMetadata) (fallback : Option ℚ) (s : SMState) : SMState :=
  match md.persistentID with
  | none => cancel_scrobble_timer s
  | some _ =>
    match DurationPolicy.decide (md.totalTime.getD 0) fallback with
    | .abandon => cancel_scrobble_timer s
    | .scheduleAfter _ =>
      ⟨(cancel_scrobble_timer s).nTimers + 1,
       upd (cancel_scrobble_timer s).status (cancel_scrobble_timer s).nTimers .live,
       some (cancel_scrobble_timer s).nTimers⟩

/-- The `Player State` string of a notification (source lines 64–74). -/
inductive PState where
  | playing
  | paused
  | stopped
  | other
deriving DecidableEq

/-- An input to the event loop: a player notification (with the payload and
the length the 5-second fallback query would resolve, an environment
input), or the fire of timer handle `i`. -/
inductive Ev where
  | notif (ps : PState) (md : TrackMetadata) (fallback : Option ℚ)
  | fire (i : ℕ)

/-- One event-loop delivery. A notification follows `receivedNotification_`
(source lines 60–74): `Playing` runs the now-playing update and, only if it
succeeded, `prepare_to_scrobble`; `Paused`/`Stopped` cancel the held timer;
an unrecognised state only logs. A fire of a live handle marks it fired
(`scrobbleTimerFired_` never touches `scrobble_timer`); a cancelled or
fired handle never fires again. -/
def step (s : SMState) (e : Ev) : SMState :=
  match e with
  | .notif .playing md fb =>
    if (update_now_playing md).2 then prepare_to_scrobble md fb s else s
  | .notif .paused _ _ => cancel_scrobble_timer s
  | .notif .stopped _ _ => cancel_scrobble_timer s
  | .notif .other _ _ => s
  | .fire i =>
    if s.status i = .live then ⟨s.nTimers, upd s.status i .fired, s.scrobble_timer⟩ else s

/-- Run the event loop from start-up on a list of inputs. -/
def run (evs : List Ev) : SMState := evs.foldl step initState

/-- Source lines 134–184, `scrobbleTimerFired_` as a pure function of its
environment reads: timer validity, `itunes.playerState()`, the snapshot
payload carried by the timer, the live current track, `time.time()` and
`itunes.playerPosition()`. Returns the scrobble call made, if any.
A payload without a `PersistentID` is modelled as no submission (there the
source would raise `TypeError` on `None < 0`; it is unreachable because
`prepare_to_scrobble` never schedules such a payload). -/
def scrobbleTimerFired (timerIsValid : Bool) (playerState : ℤ)
    (ui : TrackMetadata) (ct : CurrentTrack) (now playerPosition : ℚ) :
    Option ScrobbleCall :=
  if timerIsValid = false then none
  else if playerState ≠ ITUNES_PLAYER_STATE_PLAYING then none
  else
    match ui.persistentID with
    | none => none
    | some pid =>
      match ct.persistentID with
      | some actual =>
        if actual ≠ format016X (toUnsigned64 pid).toNat then none
        else
          some ⟨ct.artist, ct.name, ct.album, ct.albumArtist, ct.trackNumber,
                some (pyInt ct.duration), pyInt (now - playerPosition)⟩
      | none =>
        some ⟨ui.artist, ui.name, ui.album, ui.albumArtist, ui.trackNumber,
              (snapshotDuration ui).map (fun n => (n : ℤ)),
              pyInt (now - playerPosition)⟩

/-- A well-formed payload: full metadata, a 40-second track, persistent id 1. -/
def mdGood : TrackMetadata :=
  ⟨some "a", some "aa", some "t", some "al", some 1, some 40000, some 1⟩

/-- A `Playing` notification for `mdGood`. -/
def evGood : Ev := .notif .playing mdGood none

/-- A stream-like payload: no artist (so the now-playing update is skipped). -/
def mdNoArtist : TrackMetadata :=
  ⟨none, none, some "t", none, none, some 40000, some 2⟩

/-- A payload with full textual metadata but no `PersistentID`. -/
def mdNoPid : TrackMetadata :=
  ⟨some "a", none, some "t", none, none, some 40000, none⟩

/-- A live current track that reports no persistent id (stream). -/
def ctNoPid : CurrentTrack :=
  ⟨none, some "la", some "lt", some "lal", some "laa", some 3, 100⟩

/-- The current track whose persistent id matches `mdGood`'s formatted id. -/
def ctMatch : CurrentTrack :=
  ⟨some "0000000000000001", some "la", some "lt", some "lal", some "laa", some 3, 100⟩

/-- The live-track scrobble call the fire handler makes for `ctMatch` at
`now = 100`, `position = 7`. -/
def liveCall : ScrobbleCall :=
  ⟨some "la", some "lt", some "lal", some "laa", some 3, some 100, 93⟩

/-- The snapshot-based scrobble call for `mdGood` at `now = 1000`,
`position = 7`. -/
def snapCall : ScrobbleCall :=
  ⟨some "a", some "t", some "al", some "aa", some 1, some 40, 993⟩

/-- The state after handle 0 has fired: one handle ever created, its status
fired, and the `scrobble_timer` field still holding it. -/
def firedState : SMState := ⟨1, upd (fun _ => .cancelled) 0 .fired, some 0⟩

/-- The invariant maintained by the event loop: every live timer handle is
the held one, and the held handle was actually created. -/
def Inv (s : SMState) : Prop :=
  (∀ i, s.status i = .live → s.scrobble_timer = some i) ∧
  (∀ i, s.scrobble_timer = some i → i < s.nTimers)

theorem inv_initState : Inv initState :=
  ⟨fun _ h => (nomatch h), fun _ h => (nomatch h)⟩

theorem cancel_scrobble_timer_field (s : SMState) :
    (cancel_scrobble_timer s).scrobble_timer = none := by
  rcases hs : s.scrobble_timer with _ | i <;> simp [cancel_scrobble_timer, hs]

theorem cancel_scrobble_timer_nTimers (s : SMState) :
    (cancel_scrobble_timer s).nTimers = s.nTimers := by
  rcases hs : s.scrobble_timer with _ | i <;> simp [cancel_scrobble_timer, hs]

theorem cancel_not_live (s : SMState) (h : Inv s) (i : ℕ) :
    (cancel_scrobble_timer s).status i ≠ .live := by
  rcases hs : s.scrobble_timer with _ | k
  · simp only [cancel_scrobble_timer, hs]
    intro hl
    have := h.1 i hl
    rw [hs] at this
    exact Option.noConfusion this
  · simp only [cancel_scrobble_timer, hs]
    intro hl
    unfold upd at hl
    by_cases hik : i = k
    · rw [if_pos hik] at hl
      rcases hk : s.status k with _ | _ | _ <;> rw [hk] at hl <;> exact TStatus.noConfusion hl
    · rw [if_neg hik] at hl
      have := h.1 i hl
      rw [hs] at this
      exact hik (Option.some.inj this).symm

theorem inv_cancel (s : SMState) (h : Inv s) : Inv (cancel_scrobble_timer s) :=
  ⟨fun i hl => absurd hl (cancel_not_live s h i),
   fun i hi => by rw [cancel_scrobble_timer_field] at hi; exact Option.noConfusion hi⟩

theorem inv_prepare (s : SMState) (h : Inv s) (md : TrackMetadata) (fb : Option ℚ) :
    Inv (prepare_to_scrobble md fb s) := by
  unfold prepare_to_scrobble
  rcases md.persistentID with _ | pid
  · exact inv_cancel s h
  · rcases DurationPolicy.decide (md.totalTime.getD 0) fb with _ | t
    · exact inv_cancel s h
    · constructor
      · intro i hl
        simp only at hl ⊢
        unfold upd at hl
        by_cases hin : i = (cancel_scrobble_timer s).nTimers
        · rw [hin]
        · rw [if_neg hin] at hl
          exact absurd hl (cancel_not_live s h i)
      · intro i hi
        simp only at hi
        have hni := Option.some.inj hi
        simp only [← hni]
        omega

theorem prepare_old_not_live (s : SMState) (md : TrackMetadata) (fb : Option ℚ) (i : ℕ)
    (h : Inv s) (hi : s.scrobble_timer = some i) :
    (prepare_to_scrobble md fb s).status i ≠ .live := by
  have hlt : i < s.nTimers := h.2 i hi
  unfold prepare_to_scrobble
  rcases md.persistentID with _ | pid
  · exact cancel_not_live s h i
  · rcases DurationPolicy.decide (md.totalTime.getD 0) fb with _ | t
    · exact cancel_not_live s h i
    · intro hl
      simp only at hl
      unfold upd at hl
      by_cases hin : i = (cancel_scrobble_timer s).nTimers
      · rw [cancel_scrobble_timer_nTimers] at hin
        omega
      · rw [if_neg hin] at hl
        exact cancel_not_live s h i hl

theorem inv_step (s : SMState) (h : Inv s) (e : Ev) : Inv (step s e) := by
  rcases e with ⟨ps, md, fb⟩ | i
  · rcases ps
    · simp only [step]
      split
      · exact inv_prepare s h md fb
      · exact h
    · exact inv_cancel s h
    · exact inv_cancel s h
    · exact h
  · simp only [step]
    split
    · rename_i hl
      constructor
      · intro j hj
        simp only at hj ⊢
        unfold upd at hj
        by_cases hji : j = i
        · rw [if_pos hji] at hj
          exact TStatus.noConfusion hj
        · rw [if_neg hji] at hj
          exact h.1 j hj
      · intro j hj
        simp only at hj
        exact h.2 j hj
    · exact h

theorem inv_foldl (evs : List Ev) (s : SMState) (h : Inv s) : Inv (evs.foldl step s) := by
  induction evs generalizing s with
  | nil => exact h
  | cons e es ih => exact ih (step s e) (inv_step s h e)

theorem inv_run (evs : List Ev) : Inv (run evs) :=
  inv_foldl evs initState inv_initState

theorem run_append_one (evs : List Ev) (e : Ev) :
    run (evs ++ [e]) = step (run evs) e := by
  simp [run, List.foldl_append]

/-- C3: for every sequence of events delivered to the loop, at most one timer
handle is live at any instant — any two live handles after any run coincide
(scheduling always cancels the held handle first). -/
theorem at_most_one_live_timer (evs : List Ev) (i j : ℕ)
    (hi : (run evs).status i = .live) (hj : (run evs).status j = .live) : i = j := by
  have h := inv_run evs
  have h1 := h.1 i hi
  have h2 := h.1 j hj
  rw [h1] at h2
  exact Option.some.inj h2

/-- Witness for C3 at a concrete run: one `Playing` event schedules handle 0,
which is live; the theorem applies to it. -/
theorem at_most_one_live_timer_witness :
    (run [evGood]).status 0 = .live ∧ (0 : ℕ) = 0 :=
  ⟨by decide, at_most_one_live_timer [evGood] 0 0 (by decide) (by decide)⟩

/-- C4, counterexample: a `Playing` event with non-empty artist and title,
a 40-second duration (which the policy would schedule with delay 20), but no
`PersistentID`, creates no timer at all — `prepare_to_scrobble` returns at
the `PersistentID is None` guard before reaching the duration logic. -/
theorem missing_pid_skips_scheduling_cex :
    (run [.notif .playing mdNoPid none]).nTimers = 0 ∧
    DurationPolicy.decide 40000 none = .scheduleAfter 20 := by
  constructor <;> decide

/-- C4 as amended: for a `Playing` event whose metadata has non-empty artist
and title but no `PersistentID`, scheduling is abandoned after the warning —
no timer handle is created and nothing is left live. -/
theorem missing_pid_skips_scheduling (evs : List Ev) (md : TrackMetadata) (fb : Option ℚ)
    (ha : pyFalsyStr md.artist = false) (ht : pyFalsyStr md.name = false)
    (hp : md.persistentID = none) :
    (run (evs ++ [.notif .playing md fb])).nTimers = (run evs).nTimers ∧
    ∀ i, (run (evs ++ [.notif .playing md fb])).status i ≠ .live := by
  rw [run_append_one]
  have hInv := inv_run evs
  have hup : (update_now_playing md).2 = true := by
    simp [update_now_playing, ha, ht]
  simp only [step, hup, if_true]
  unfold prepare_to_scrobble
  rw [hp]
  exact ⟨cancel_scrobble_timer_nTimers _, fun i => cancel_not_live _ hInv i⟩

/-- Witness for the amended C4: the concrete pid-less payload, processed from
start-up, leaves the timer count unchanged. -/
theorem missing_pid_skips_scheduling_witness :
    pyFalsyStr mdNoPid.artist = false ∧ pyFalsyStr mdNoPid.name = false ∧
    mdNoPid.persistentID = none ∧
    (run ([] ++ [.notif .playing mdNoPid none])).nTimers = (run []).nTimers :=
  ⟨by decide, by decide, by decide,
   (missing_pid_skips_scheduling [] mdNoPid none (by decide) (by decide) (by decide)).1⟩

/-- C5: the zero-duration fallback path never re-checks the 30-second
minimum (the minimum lives in the `elif` branch, source line 111), so a
fallback-resolved 10-second track is scheduled with delay `ceil(10/2) = 5`,
and an end-to-end run on such an event creates a timer. -/
theorem short_fallback_track_scheduled :
    DurationPolicy.decide 0 (some 10) = .scheduleAfter 5 ∧
    (run [.notif .playing ⟨some "a", none, some "t", none, none, some 0, some 7⟩
            (some 10)]).nTimers = 1 := by
  constructor <;> decide

/-- C6: a `Playing` event whose artist or title is missing or empty makes no
now-playing call, reports `False`, and leaves the machine state untouched —
no timer is scheduled and nothing else happens. -/
theorem missing_artist_or_title_skips (md : TrackMetadata)
    (h : pyFalsyStr md.artist = true ∨ pyFalsyStr md.name = true) :
    update_now_playing md = (none, false) ∧
    ∀ (s : SMState) (fb : Option ℚ), step s (.notif .playing md fb) = s := by
  have hcond : (pyFalsyStr md.artist || pyFalsyStr md.name) = true := by
    rcases h with h | h <;> simp [h]
  constructor
  · simp [update_now_playing, hcond]
  · intro s fb
    simp [step, update_now_playing, hcond]

/-- Witness for C6: a payload with no artist is skipped and the initial state
is unchanged. -/
theorem missing_artist_or_title_skips_witness :
    pyFalsyStr mdNoArtist.artist = true ∧
    update_now_playing mdNoArtist = (none, false) ∧
    step initState (.notif .playing mdNoArtist none) = initState :=
  ⟨by decide, (missing_artist_or_title_skips mdNoArtist (Or.inl (by decide))).1,
   (missing_artist_or_title_skips mdNoArtist (Or.inl (by decide))).2 initState none⟩

/-- C9, counterexample: with a timer outstanding for `mdGood` (handle 0), a
`Playing` event with missing artist is processed without cancelling it —
the handle is still live and still held afterwards, because
`receivedNotification_` only reaches `prepare_to_scrobble` (and hence the
cancellation) when the now-playing update succeeds. -/
theorem playing_event_keeps_timer_cex :
    (run [evGood, .notif .playing mdNoArtist none]).status 0 = .live ∧
    (run [evGood, .notif .playing mdNoArtist none]).scrobble_timer = some 0 := by
  constructor <;> decide

/-- C9 as amended: `Paused`/`Stopped` events always cancel the outstanding
timer (nothing is left live); a `Playing` event cancels it only when the
now-playing update succeeds (non-empty artist and title) — cancellation then
happens at the start of `prepare_to_scrobble`, after the now-playing call —
and a `Playing` event whose update is skipped leaves the timer running. -/
theorem cancellation_discipline (evs : List Ev) (md : TrackMetadata) (fb : Option ℚ) :
    (∀ i, (run (evs ++ [.notif .paused md fb])).status i ≠ .live) ∧
    (∀ i, (run (evs ++ [.notif .stopped md fb])).status i ≠ .live) ∧
    ((update_now_playing md).2 = true →
      ∀ i, (run evs).scrobble_timer = some i →
        (run (evs ++ [.notif .playing md fb])).status i ≠ .live) := by
  have hInv := inv_run evs
  refine ⟨fun i => ?_, fun i => ?_, fun hup i hi => ?_⟩
  · rw [run_append_one]
    exact cancel_not_live _ hInv i
  · rw [run_append_one]
    exact cancel_not_live _ hInv i
  · rw [run_append_one]
    simp only [step, hup, if_true]
    exact prepare_old_not_live _ md fb i hInv hi

/-- Witness for the amended C9: after scheduling handle 0 for `mdGood`, both
a `Paused` event and a well-formed `Playing` event leave handle 0 not live. -/
theorem cancellation_discipline_witness :
    (update_now_playing mdGood).2 = true ∧
    (run [evGood]).scrobble_timer = some 0 ∧
    (run ([evGood] ++ [.notif .paused mdGood none])).status 0 ≠ .live ∧
    (run ([evGood] ++ [.notif .playing mdGood none])).status 0 ≠ .live :=
  ⟨by decide, by decide,
   (cancellation_discipline [evGood] mdGood none).1 0,
   (cancellation_discipline [evGood] mdGood none).2.2 (by decide) 0 (by decide)⟩

/-- C10: the fire transition never clears the `scrobble_timer` field, and
`cancel_scrobble_timer` — run by the next `Playing`/`Paused`/`Stopped`
event — resets the field to `None` while its `invalidate()` on the
already-fired handle is a no-op (the handle stays fired). -/
theorem fire_preserves_timer_field (s : SMState) (i : ℕ) :
    (step s (.fire i)).scrobble_timer = s.scrobble_timer ∧
    (s.scrobble_timer = some i → s.status i = .fired →
      (cancel_scrobble_timer s).scrobble_timer = none ∧
      (cancel_scrobble_timer s).status i = .fired) := by
  constructor
  · simp only [step]
    split <;> rfl
  · intro hi hf
    refine ⟨cancel_scrobble_timer_field s, ?_⟩
    simp only [cancel_scrobble_timer, hi]
    unfold upd
    rw [if_pos rfl, hf]

/-- Witness for C10 on `firedState`: the field still holds the fired handle,
and cancelling clears the field without changing the handle's status. -/
theorem fire_preserves_timer_field_witness :
    firedState.scrobble_timer = some 0 ∧ firedState.status 0 = .fired ∧
    ((cancel_scrobble_timer firedState).scrobble_timer = none ∧
     (cancel_scrobble_timer firedState).status 0 = .fired) :=
  ⟨rfl, by decide, (fire_preserves_timer_field firedState 0).2 rfl (by decide)⟩

theorem decide_nonzero_ge (d : ℕ) (fb : Option ℚ) (hd : 30000 ≤ d) :
    DurationPolicy.decide d fb = .scheduleAfter (min ⌈(d : ℚ) / 1000 / 2⌉ 240) := by
  have hd0 : ¬((d : ℚ) / 1000 = 0) := by
    rw [div_eq_zero_iff]
    push_neg
    refine ⟨?_, by norm_num⟩
    exact_mod_cast (by omega : d ≠ 0)
  have hdlt : ¬((d : ℚ) / 1000 < (SCROBBLER_MIN_TRACK_LENGTH : ℚ)) := by
    rw [not_lt, le_div_iff₀ (by norm_num : (0 : ℚ) < 1000)]
    have h30 : ((SCROBBLER_MIN_TRACK_LENGTH : ℕ) : ℚ) = 30 := by
      norm_num [SCROBBLER_MIN_TRACK_LENGTH]
    rw [h30]
    have hdc : (30000 : ℚ) ≤ (d : ℚ) := by exact_mod_cast hd
    linarith
  simp only [DurationPolicy.decide]
  rw [if_neg hd0, if_neg hdlt]
  rfl

/-- C2: the scheduling decision — the spec's worked examples `500_000 → 240`,
`40_000 → 20`, `10_000 → Abandon`, the zero-length fallback cases
(`200 → 100`, `null → Abandon`), and the general
`min(ceil(length / 2), 240)` rule for every length of at least 30 seconds. -/
theorem duration_policy_decide_spec :
    (∀ fb, DurationPolicy.decide 500000 fb = .scheduleAfter 240) ∧
    (∀ fb, DurationPolicy.decide 40000 fb = .scheduleAfter 20) ∧
    (∀ fb, DurationPolicy.decide 10000 fb = .abandon) ∧
    DurationPolicy.decide 0 (some 200) = .scheduleAfter 100 ∧
    DurationPolicy.decide 0 none = .abandon ∧
    (∀ (d : ℕ) (fb : Option ℚ), 30000 ≤ d →
      DurationPolicy.decide d fb = .scheduleAfter (min ⌈(d : ℚ) / 1000 / 2⌉ 240)) := by
  refine ⟨fun fb => ?_, fun fb => ?_, fun fb => ?_, by decide, by decide,
    fun d fb hd => decide_nonzero_ge d fb hd⟩
  · have h1 : ((500000 : ℕ) : ℚ) / 1000 / 2 = 250 := by norm_num
    rw [decide_nonzero_ge 500000 fb (by norm_num), h1]
    decide
  · have h1 : ((40000 : ℕ) : ℚ) / 1000 / 2 = 20 := by norm_num
    rw [decide_nonzero_ge 40000 fb (by norm_num), h1]
    decide
  · simp only [DurationPolicy.decide]
    rw [if_neg (by norm_num : ¬(((10000 : ℕ) : ℚ) / 1000 = 0)),
        if_pos (by norm_num [SCROBBLER_MIN_TRACK_LENGTH] :
          ((10000 : ℕ) : ℚ) / 1000 < (SCROBBLER_MIN_TRACK_LENGTH : ℚ))]

/-- Witness for C2's general rule at `durationMillis = 500000`. -/
theorem duration_policy_decide_spec_witness :
    (30000 : ℕ) ≤ 500000 ∧
    DurationPolicy.decide 500000 none = .scheduleAfter (min ⌈((500000 : ℕ) : ℚ) / 1000 / 2⌉ 240) :=
  ⟨by norm_num, duration_policy_decide_spec.2.2.2.2.2 500000 none (by norm_num)⟩

theorem toHexDigits_length_le (fuel : ℕ) : ∀ n, (toHexDigits fuel n).length ≤ fuel := by
  induction fuel with
  | zero => intro n; simp [toHexDigits]
  | succ f ih =>
    intro n
    simp only [toHexDigits]
    split
    · simp
    · rw [List.length_append, List.length_singleton]
      have := ih (n / 16)
      omega

theorem hexDigitChar_mem (n : ℕ) : hexDigitChar n ∈ "0123456789ABCDEF".data := by
  rcases n with _ | _ | _ | _ | _ | _ | _ | _ | _ | _ | _ | _ | _ | _ | _ | n
  · decide
  · decide
  · decide
  · decide
  · decide
  · decide
  · decide
  · decide
  · decide
  · decide
  · decide
  · decide
  · decide
  · decide
  · decide
  · show 'F' ∈ "0123456789ABCDEF".data
    decide

theorem toHexDigits_mem (fuel : ℕ) :
    ∀ n c, c ∈ toHexDigits fuel n → c ∈ "0123456789ABCDEF".data := by
  induction fuel with
  | zero => intro n c hc; simp [toHexDigits] at hc
  | succ f ih =>
    intro n c hc
    simp only [toHexDigits] at hc
    split at hc
    · simp at hc
    · rcases List.mem_append.mp hc with h | h
      · exact ih _ _ h
      · rw [List.mem_singleton] at h
        rw [h]
        exact hexDigitChar_mem _

theorem format016X_length (n : ℕ) : (format016X n).length = 16 := by
  have hle := toHexDigits_length_le 16 n
  simp only [format016X, String.length]
  split
  · simp
  · rw [List.length_append, List.length_replicate]
    omega

theorem format016X_mem (n : ℕ) (c : Char) (hc : c ∈ (format016X n).data) :
    c ∈ "0123456789ABCDEF".data := by
  simp only [format016X] at hc
  rcases List.mem_append.mp hc with h | h
  · rw [List.eq_of_mem_replicate h]
    decide
  · split at h
    · rw [List.mem_singleton] at h
      rw [h]
      decide
    · exact toHexDigits_mem 16 n c h

/-- C7: the sign correction maps every negative signed 64-bit id `v` to
`v + 2 ^ 64`, whose formatted form has exactly 16 characters, all uppercase
hexadecimal digits; in particular `toUnsigned64 (-1) = 2 ^ 64 - 1` and its
format is `"FFFFFFFFFFFFFFFF"`. -/
theorem persistent_id_sign_correction :
    toUnsigned64 (-1) = 2 ^ 64 - 1 ∧
    format016X ((2 : ℕ) ^ 64 - 1) = "FFFFFFFFFFFFFFFF" ∧
    ∀ v : ℤ, -(2 ^ 63) ≤ v → v < 0 →
      toUnsigned64 v = v + 2 ^ 64 ∧
      (format016X (toUnsigned64 v).toNat).length = 16 ∧
      ∀ c ∈ (format016X (toUnsigned64 v).toNat).data, c ∈ "0123456789ABCDEF".data := by
  refine ⟨by decide, by decide,
    fun v h1 h2 => ⟨?_, format016X_length _, fun c hc => format016X_mem _ c hc⟩⟩
  unfold toUnsigned64
  rw [if_pos h2]

/-- Witness for C7 at `v = -1`. -/
theorem persistent_id_sign_correction_witness :
    (-(2 ^ 63) : ℤ) ≤ -1 ∧ (-1 : ℤ) < 0 ∧ toUnsigned64 (-1) = -1 + 2 ^ 64 :=
  ⟨by norm_num, by norm_num,
   (persistent_id_sign_correction.2.2 (-1) (by norm_num) (by norm_num)).1⟩

/-- C1: with the timer valid and the player playing, the fire handler's case
analysis on the live persistent id against the snapshot's sign-corrected,
formatted id: present-and-different drops the scrobble; present-and-equal
submits from the live current track (artist, title, album, album artist,
track number, integer-seconds duration); absent submits from the snapshot
metadata captured at notification time. -/
theorem fire_case_analysis (ui : TrackMetadata) (ct : CurrentTrack) (now pos : ℚ)
    (pid : ℤ) (hpid : ui.persistentID = some pid) :
    (∀ a, ct.persistentID = some a → a ≠ format016X (toUnsigned64 pid).toNat →
      scrobbleTimerFired true ITUNES_PLAYER_STATE_PLAYING ui ct now pos = none) ∧
    (∀ a, ct.persistentID = some a → a = format016X (toUnsigned64 pid).toNat →
      scrobbleTimerFired true ITUNES_PLAYER_STATE_PLAYING ui ct now pos =
        some ⟨ct.artist, ct.name, ct.album, ct.albumArtist, ct.trackNumber,
              some (pyInt ct.duration), pyInt (now - pos)⟩) ∧
    (ct.persistentID = none →
      scrobbleTimerFired true ITUNES_PLAYER_STATE_PLAYING ui ct now pos =
        some ⟨ui.artist, ui.name, ui.album, ui.albumArtist, ui.trackNumber,
              (snapshotDuration ui).map (fun n => (n : ℤ)), pyInt (now - pos)⟩) := by
  refine ⟨fun a hct hne => ?_, fun a hct heq => ?_, fun hct => ?_⟩
  · simp [scrobbleTimerFired, hpid, hct, hne]
  · simp [scrobbleTimerFired, hpid, hct, heq]
  · simp [scrobbleTimerFired, hpid, hct]

/-- Witness for C1 in the present-and-equal branch. -/
theorem fire_case_analysis_witness :
    ctMatch.persistentID = some "0000000000000001" ∧
    "0000000000000001" = format016X (toUnsigned64 1).toNat ∧
    scrobbleTimerFired true ITUNES_PLAYER_STATE_PLAYING mdGood ctMatch 100 7 = some liveCall := by
  refine ⟨rfl, by decide, ?_⟩
  have h := (fire_case_analysis mdGood ctMatch 100 7 1 rfl).2.1 "0000000000000001" rfl (by decide)
  exact h.trans (by decide)

/-- C8, counterexample: at fire time `T = 1000` with playback position
`P = 1/2`, the submitted timestamp is `int(1000 - 0.5) = 999`, while the
claimed `T - floor(P)` is `1000`. -/
theorem timestamp_not_T_minus_floorP :
    (scrobbleTimerFired true ITUNES_PLAYER_STATE_PLAYING mdGood ctNoPid 1000 (1 / 2)).map
        ScrobbleCall.timestamp = some 999 ∧
    (1000 : ℤ) - ⌊(1 : ℚ) / 2⌋ = 1000 ∧ (999 : ℤ) ≠ 1000 :=
  ⟨by decide, by decide, by decide⟩

/-- C8 as amended: every submission made by the fire handler carries
`timestamp = int(now - position)`, which equals `floor(now - position)`
whenever `now ≥ position` (the normal case) — the `floor(now() − position)`
formulation, not `T - floor(P)`. -/
theorem timestamp_floor_of_diff (tv : Bool) (ps : ℤ) (ui : TrackMetadata)
    (ct : CurrentTrack) (now pos : ℚ) (call : ScrobbleCall)
    (hT : 0 ≤ now - pos)
    (h : scrobbleTimerFired tv ps ui ct now pos = some call) :
    call.timestamp = ⌊now - pos⌋ := by
  have hts : call.timestamp = pyInt (now - pos) := by
    unfold scrobbleTimerFired at h
    repeat' split at h
    all_goals
      first
      | exact Option.noConfusion h
      | (injection h with h'; rw [← h'])
  rw [hts]
  unfold pyInt
  rw [if_pos hT]

/-- Witness for the amended C8 on a concrete fire through the handler. -/
theorem timestamp_floor_of_diff_witness :
    (0 : ℚ) ≤ 1000 - 7 ∧
    scrobbleTimerFired true ITUNES_PLAYER_STATE_PLAYING mdGood ctNoPid 1000 7 = some snapCall ∧
    snapCall.timestamp = ⌊(1000 : ℚ) - 7⌋ :=
  ⟨by norm_num, by decide,
   timestamp_floor_of_diff true ITUNES_PLAYER_STATE_PLAYING mdGood ctNoPid 1000 7 snapCall
     (by norm_num) (by decide)⟩

end Scrobbler
